import Mathlib

/-!
Verification of the match-action simulation core of `src/football_simulation.py`.

The embedding works over the rationals: every arithmetic step of the source
(vector subtraction, dot products, projection, clamping, the closest point on a
segment, uniform sampling, boundary comparisons) is exact rational arithmetic,
and the single irrational operation of the source — the final `np.sqrt` of a
squared distance — is kept as `Real.sqrt` applied to the rational squared value
inside theorem statements.  The ambient `np.random` stream is modelled as an
explicit list of unit-interval draws threaded through the state, consumed in
exactly the order the source consumes `np.random.random()` /
`np.random.uniform` calls.
-/

namespace FootballSim

/-- A 2-D field coordinate in meters (source: numpy array `[x, y]`). -/
abbrev Pt : Type := ℚ × ℚ

/-- Componentwise vector subtraction `u - v` (numpy array subtraction). -/
def vsub (u v : Pt) : Pt := (u.1 - v.1, u.2 - v.2)

/-- Dot product `np.dot u v`; `dotP u u` is `np.sum(u**2)`. -/
def dotP (u v : Pt) : ℚ := u.1 * v.1 + u.2 * v.2

/-- Squared Euclidean distance between two points. -/
def dist_sq (u v : Pt) : ℚ := dotP (vsub u v) (vsub u v)

/-- The point `a + t * (b - a)` on the parametrised line through `a` and `b`. -/
def segPoint (a b : Pt) (t : ℚ) : Pt :=
  (a.1 + t * (b.1 - a.1), a.2 + t * (b.2 - a.2))

/-- `np.clip t 0 1`. -/
def clamp01 (t : ℚ) : ℚ := max 0 (min t 1)

/-- The unclamped projection scalar `t = np.dot(ap, ab) / len_sq` of
`PhysicsEngine.get_distance_point_to_segment` (line 48 of the source). -/
def rawT (p a b : Pt) : ℚ :=
  dotP (vsub p a) (vsub b a) / dotP (vsub b a) (vsub b a)

/-- `PhysicsEngine.get_distance_point_to_segment`, up to the final `np.sqrt`:
the squared distance from `p` to the segment `[a, b]`.  The source returns
`np.sqrt` of this value; theorems state properties of
`Real.sqrt (get_distance_sq_point_to_segment p a b)`, and the interception
comparison `np.sqrt d2 < radius` is embedded by the equivalent decidable
rational test `sqrtLt` (equivalence proved in `sqrtLt_iff`). -/
def get_distance_sq_point_to_segment (p a b : Pt) : ℚ :=
  -- `len_sq = np.sum(ab**2); if len_sq == 0: return np.sqrt(np.sum((p-a)**2))`
  if dotP (vsub b a) (vsub b a) = 0 then dotP (vsub p a) (vsub p a)
  else
    -- `t = np.clip(np.dot(ap, ab) / len_sq, 0, 1); closest = a + t * ab`
    dist_sq p (segPoint a b (clamp01 (rawT p a b)))

/-- The source comparison `np.sqrt d2 < r`, as a decidable rational test
(equivalent by `sqrtLt_iff` since `Real.sqrt` is monotone and nonnegative). -/
def sqrtLt (d2 r : ℚ) : Bool := decide (0 < r ∧ d2 < r ^ 2)

/-- `Player` dataclass of the source: name, position `[x, y]`, role string
(`"GK"`, `"DEF"`, `"MF"`, `"FWD"`), interception skill. -/
structure Player where
  name : String
  position : Pt
  position_role : String
  interception_stat : ℚ
deriving DecidableEq

/-- `Team` dataclass of the source: name and ordered roster. -/
structure Team where
  name : String
  players : List Player
deriving DecidableEq

/-- `PhysicsEngine.check_interception`: scan `defenders` in roster order and
return `(true, first defender whose distance to the pass segment is < radius)`,
or `(false, none)`. -/
def check_interception (passStart passEnd : Pt) (defenders : List Player)
    (radius : ℚ) : Bool × Option Player :=
  match defenders with
  | [] => (false, none)
  | d :: rest =>
    if sqrtLt (get_distance_sq_point_to_segment d.position passStart passEnd)
        radius then
      (true, some d)
    else
      check_interception passStart passEnd rest radius

/- ------------------------------------------------------------------ -/
/- Basic geometry lemmas                                               -/
/- ------------------------------------------------------------------ -/

lemma dotP_self_nonneg (u : Pt) : 0 ≤ dotP u u := by
  unfold dotP; nlinarith [mul_self_nonneg u.1, mul_self_nonneg u.2]

lemma dist_sq_nonneg (u v : Pt) : 0 ≤ dist_sq u v := by
  unfold dist_sq; exact dotP_self_nonneg _

lemma dotP_self_eq_zero (u : Pt) : dotP u u = 0 ↔ u.1 = 0 ∧ u.2 = 0 := by
  unfold dotP
  constructor
  · intro h
    constructor <;> nlinarith [mul_self_nonneg u.1, mul_self_nonneg u.2]
  · rintro ⟨h1, h2⟩
    rw [h1, h2]; ring

lemma get_distance_sq_nonneg (p a b : Pt) :
    0 ≤ get_distance_sq_point_to_segment p a b := by
  unfold get_distance_sq_point_to_segment
  split
  · exact dotP_self_nonneg _
  · exact dist_sq_nonneg _ _

/-- The comparison `np.sqrt d2 < r` of the source agrees with the decidable
rational test `sqrtLt d2 r` whenever `0 ≤ d2` (always the case for a squared
distance). -/
lemma sqrtLt_iff (d2 r : ℚ) (h : 0 ≤ d2) :
    sqrtLt d2 r = true ↔ Real.sqrt (d2 : ℝ) < (r : ℝ) := by
  unfold sqrtLt
  rw [decide_eq_true_eq]
  constructor
  · rintro ⟨hr, hlt⟩
    have hcast : (d2 : ℝ) < (r : ℝ) ^ 2 := by exact_mod_cast hlt
    have h0 : (0 : ℝ) ≤ (d2 : ℝ) := by exact_mod_cast h
    calc Real.sqrt (d2 : ℝ) < Real.sqrt ((r : ℝ) ^ 2) :=
          Real.sqrt_lt_sqrt h0 hcast
      _ = (r : ℝ) := Real.sqrt_sq (by exact_mod_cast hr.le)
  · intro hlt
    have hr : (0 : ℝ) < (r : ℝ) := lt_of_le_of_lt (Real.sqrt_nonneg _) hlt
    refine ⟨by exact_mod_cast hr, ?_⟩
    have := (Real.sqrt_lt' hr).mp hlt
    exact_mod_cast this

/- ------------------------------------------------------------------ -/
/- Random stream, set pieces, simulator state                          -/
/- ------------------------------------------------------------------ -/

/-- The ambient `np.random` stream, modelled as the explicit list of
unit-interval values the successive `np.random.random()` draws produce
(an exhausted list keeps producing `0`, which also lies in `[0, 1)`). -/
abbrev RNG : Type := List ℚ

/-- One `np.random.random()` draw. -/
def draw (rng : RNG) : ℚ × RNG :=
  match rng with
  | [] => (0, [])
  | r :: rest => (r, rest)

/-- `np.random.uniform lo hi`: one fresh draw scaled onto `[lo, hi)`. -/
def uniform (lo hi : ℚ) (rng : RNG) : ℚ × RNG :=
  (lo + (draw rng).1 * (hi - lo), (draw rng).2)

/-- `SetPieceManager.check_boundaries` (pitch 105 × 68, inclusive bounds in
play; for `x > 105` the source draws `np.random.random()` and returns
`"CORNER"` if the draw is `> 0.5`, else `"GOAL_KICK"`). -/
def check_boundaries (rng : RNG) (ballX ballY : ℚ) : String × RNG :=
  if 0 ≤ ballX ∧ ballX ≤ 105 ∧ 0 ≤ ballY ∧ ballY ≤ 68 then ("OPEN_PLAY", rng)
  else if 105 < ballX then
    (if mkRat 1 2 < (draw rng).1 then "CORNER" else "GOAL_KICK",
      (draw rng).2)
  else if ballX < 0 then ("CORNER", rng)
  else ("THROW_IN", rng)

/-- The literal `0.5` of the source, written `mkRat 1 2` so that concrete
runs evaluate by kernel reduction. -/
lemma half_eq : (mkRat 1 2 : ℚ) = 1 / 2 := by
  rw [Rat.mkRat_eq_div]; norm_num

/-- The center-field x-coordinate `52.5` of the source, written
`mkRat 105 2`. -/
lemma center_eq : (mkRat 105 2 : ℚ) = 105 / 2 := by
  rw [Rat.mkRat_eq_div]; norm_num

/-- Which of the simulator's two team slots a Python team reference denotes. -/
inductive TeamIdx where
  | home
  | away
deriving DecidableEq

/-- `Event` dict built by `MatchSimulator.simulate_step`; the three source
keys that are only sometimes present (`result`, `interceptor`, `set_piece`)
are `Option` fields. -/
structure Event where
  action : String
  ball_pos_before : Pt
  possession_before : String
  game_state : String
  result : Option String
  interceptor : Option String
  set_piece : Option String
  ball_pos_after : Pt
  possession_after : String
deriving DecidableEq

/-- The mutable state of a `MatchSimulator` (plus the ambient RNG stream):
both teams, the ball position, which team slot currently has possession,
the `SetPieceManager.game_state` string, and the event log. -/
structure SimState where
  home_team : Team
  away_team : Team
  ball : Pt
  possession : TeamIdx
  game_state : String
  events : List Event
  rng : RNG
deriving DecidableEq

/-- Dereference a team slot. -/
def SimState.team (s : SimState) : TeamIdx → Team
  | TeamIdx.home => s.home_team
  | TeamIdx.away => s.away_team

/-- Write a new roster into a team slot (the in-place player mutation of the
source's scramble loops). -/
def SimState.setPlayers (s : SimState) (i : TeamIdx) (ps : List Player) :
    SimState :=
  match i with
  | TeamIdx.home => { s with home_team := { s.home_team with players := ps } }
  | TeamIdx.away => { s with away_team := { s.away_team with players := ps } }

/-- Line 245 of the source:
`defending_team = self.away_team if self.possession_team == self.home_team
else self.home_team` — note the dataclass VALUE comparison. -/
def defendingIdx (s : SimState) : TeamIdx :=
  if s.team s.possession = s.home_team then TeamIdx.away else TeamIdx.home

/-- The attacking-team loop of the `CORNER` branch of
`SetPieceManager.resolve_set_piece`: every non-goalkeeper is moved to
`[np.random.uniform(95, 104), np.random.uniform(20, 48)]`, goalkeepers stay. -/
def scramble_attacking : List Player → RNG → List Player × RNG
  | [], rng => ([], rng)
  | p :: ps, rng =>
    if p.position_role = "GK" then
      let rest := scramble_attacking ps rng
      (p :: rest.1, rest.2)
    else
      let ux := uniform 95 104 rng
      let uy := uniform 20 48 ux.2
      let rest := scramble_attacking ps uy.2
      ({ p with position := (ux.1, uy.1) } :: rest.1, rest.2)

/-- The defending-team loop of the `CORNER` branch: the goalkeeper goes to
`[104, 34]`, everyone else is scrambled into the same box. -/
def scramble_defending : List Player → RNG → List Player × RNG
  | [], rng => ([], rng)
  | p :: ps, rng =>
    if p.position_role = "GK" then
      let rest := scramble_defending ps rng
      ({ p with position := ((104 : ℚ), (34 : ℚ)) } :: rest.1, rest.2)
    else
      let ux := uniform 95 104 rng
      let uy := uniform 20 48 ux.2
      let rest := scramble_defending ps uy.2
      ({ p with position := (ux.1, uy.1) } :: rest.1, rest.2)

/-- `SetPieceManager.resolve_set_piece`, at the simulator level.  The source
mutates the team objects it is handed and returns the new ball position; here
the two teams are designated by slot index (`simulate_step` passes
`self.possession_team` and its local `defending_team`, which after an
interception are the SAME object — writing through slots sequentially, the
attacking loop first, reproduces that aliasing exactly).  For any state other
than `CORNER`/`GOAL_KICK` the source returns its initial placeholder
`ball_pos = [0, 0]`. -/
def resolve_set_piece (state : String) (atkIdx defIdx : TeamIdx)
    (s : SimState) : SimState :=
  if state = "CORNER" then
    -- `corner_side = 0 if np.random.random() < 0.5 else 68`
    let d0 := draw s.rng
    let side : ℚ := if d0.1 < mkRat 1 2 then 0 else 68
    let atk := scramble_attacking (s.team atkIdx).players d0.2
    let s1 := s.setPlayers atkIdx atk.1
    let dfn := scramble_defending (s1.team defIdx).players atk.2
    let s2 := s1.setPlayers defIdx dfn.1
    { s2 with ball := (105, side), rng := dfn.2 }
  else if state = "GOAL_KICK" then
    { s with ball := (5, 34) }
  else
    { s with ball := (0, 0) }

/-- The action-dispatch block of `MatchSimulator.simulate_step`
(lines 248–272): returns the updated state together with the optional
`result` and `interceptor` event fields.  The source branches on the boolean
of `check_interception` and then dereferences the returned defender; since
`check_interception` returns `true` exactly together with `some` defender
(`check_interception_fst_iff_snd` below), matching on the `Option` component
is the same dispatch. -/
def apply_action (s : SimState) (defIdx : TeamIdx) (action : String)
    (targetPos : Option Pt) : SimState × Option String × Option String :=
  match targetPos with
  | none => (s, none, none)
  | some tgt =>
    if action = "PASS" then
      match check_interception s.ball tgt (s.team defIdx).players 2 with
      | (_, some d) =>
        ({ s with possession := defIdx, ball := d.position },
          some "INTERCEPTED", some d.name)
      | (_, none) =>
        ({ s with ball := tgt }, some "SUCCESS", none)
    else if action = "SHOOT" then
      ({ s with ball := tgt }, some "SHOT", none)
    else if action = "DRIBBLE" then
      ({ s with ball := tgt }, some "DRIBBLE", none)
    else (s, none, none)

/-- `MatchSimulator.simulate_step`: snapshot pre-state, dispatch the action,
run the boundary check on the resulting ball position, resolve a set piece if
the state is not `OPEN_PLAY`, assemble the event and append it to the log. -/
def simulate_step (s : SimState) (action : String) (targetPos : Option Pt) :
    Event × SimState :=
  let defIdx := defendingIdx s
  let step1 := apply_action s defIdx action targetPos
  let s1 := step1.1
  let bc := check_boundaries s1.rng s1.ball.1 s1.ball.2
  let s2 := { s1 with rng := bc.2 }
  let s3 := if bc.1 ≠ "OPEN_PLAY" then
      { resolve_set_piece bc.1 s2.possession defIdx s2 with game_state := bc.1 }
    else
      { s2 with game_state := "OPEN_PLAY" }
  let ev : Event :=
    { action := action
      ball_pos_before := s.ball
      possession_before := (s.team s.possession).name
      game_state := s.game_state
      result := step1.2.1
      interceptor := step1.2.2
      set_piece := if bc.1 ≠ "OPEN_PLAY" then some bc.1 else none
      ball_pos_after := s3.ball
      possession_after := (s3.team s3.possession).name }
  (ev, { s3 with events := s3.events ++ [ev] })

/-- `MatchSimulator.__init__`: fresh ball at center field `[52.5, 34.0]`,
possession to the home team, open play, empty log. -/
def mkSimulator (home away : Team) (rng : RNG) : SimState :=
  { home_team := home, away_team := away, ball := (mkRat 105 2, 34)
    possession := TeamIdx.home, game_state := "OPEN_PLAY", events := []
    rng := rng }

/-- `MatchSimulator.reset`. -/
def reset (s : SimState) : SimState :=
  { s with ball := (mkRat 105 2, 34), possession := TeamIdx.home
           game_state := "OPEN_PLAY", events := [] }

/-- `MatchSimulator.get_training_data`. -/
def get_training_data (s : SimState) : List Event := s.events

/-- Execute an ordered sequence of `simulate_step` calls. -/
def run (s : SimState) : List (String × Option Pt) → SimState
  | [] => s
  | (a, t) :: rest => run (simulate_step s a t).2 rest

/-- The in-play region of `check_boundaries`. -/
def in_bounds (p : Pt) : Prop := 0 ≤ p.1 ∧ p.1 ≤ 105 ∧ 0 ≤ p.2 ∧ p.2 ≤ 68

/-- The goalmouth scramble box of the `CORNER` set piece. -/
def in_box (p : Pt) : Prop := 95 ≤ p.1 ∧ p.1 ≤ 104 ∧ 20 ≤ p.2 ∧ p.2 ≤ 48

/-- All values of an RNG stream are legitimate `np.random.random()` outputs. -/
def goodRNG (rng : RNG) : Prop := ∀ r ∈ rng, 0 ≤ r ∧ r < 1

instance : DecidablePred in_bounds := fun p => by unfold in_bounds; infer_instance
instance : DecidablePred in_box := fun p => by unfold in_box; infer_instance
instance : DecidablePred goodRNG := fun rng => by
  unfold goodRNG; infer_instance

/- ------------------------------------------------------------------ -/
/- check_interception characterization                                 -/
/- ------------------------------------------------------------------ -/

lemma check_interception_fst (a b : Pt) (ds : List Player) (r : ℚ) :
    (check_interception a b ds r).1 = true ↔
      ∃ d ∈ ds,
        sqrtLt (get_distance_sq_point_to_segment d.position a b) r = true := by
  induction ds with
  | nil => simp [check_interception]
  | cons d rest ih =>
    by_cases h : sqrtLt (get_distance_sq_point_to_segment d.position a b) r
      = true
    · simp [check_interception, h]
    · simp [check_interception, h, ih]

lemma check_interception_snd (a b : Pt) (ds : List Player) (r : ℚ) :
    (check_interception a b ds r).2 =
      ds.find?
        (fun d => sqrtLt (get_distance_sq_point_to_segment d.position a b) r)
      := by
  induction ds with
  | nil => simp [check_interception]
  | cons d rest ih =>
    by_cases h : sqrtLt (get_distance_sq_point_to_segment d.position a b) r
      = true
    · simp [check_interception, h, List.find?_cons_of_pos]
    · rw [List.find?_cons_of_neg _ (by simp [h])]
      simp only [check_interception, h]
      simpa using ih

lemma check_interception_fst_iff_snd (a b : Pt) (ds : List Player) (r : ℚ) :
    (check_interception a b ds r).1 = true ↔
      ∃ d, (check_interception a b ds r).2 = some d := by
  induction ds with
  | nil => simp [check_interception]
  | cons d rest ih =>
    by_cases h : sqrtLt (get_distance_sq_point_to_segment d.position a b) r
      = true
    · simp [check_interception, h]
    · simp [check_interception, h, ih]

/-- C2: `check_interception` returns `intercepted = true` iff some defender's
distance (the real square root of the rational squared distance) to the pass
segment is strictly below the radius; the returned interceptor is the first
qualifying defender in roster order (`List.find?` over the roster); the
interceptor is `none` exactly when no interception happened; and the
per-defender rational test agrees with the strict real comparison (so a
distance exactly equal to the radius does not intercept). -/
theorem check_interception_correct (a b : Pt) (ds : List Player) (r : ℚ) :
    ((check_interception a b ds r).1 = true ↔
      ∃ d ∈ ds,
        Real.sqrt ((get_distance_sq_point_to_segment d.position a b : ℚ) : ℝ)
          < (r : ℝ)) ∧
    ((check_interception a b ds r).2 =
      ds.find?
        (fun d => sqrtLt (get_distance_sq_point_to_segment d.position a b) r))
      ∧
    ((check_interception a b ds r).1 = false ↔
      (check_interception a b ds r).2 = none) ∧
    (∀ d : Player,
      sqrtLt (get_distance_sq_point_to_segment d.position a b) r = true ↔
        Real.sqrt ((get_distance_sq_point_to_segment d.position a b : ℚ) : ℝ)
          < (r : ℝ)) := by
  refine ⟨?_, check_interception_snd a b ds r, ?_, fun d =>
    sqrtLt_iff _ _ (get_distance_sq_nonneg _ _ _)⟩
  · rw [check_interception_fst]
    exact exists_congr fun d => and_congr_right fun _ =>
      sqrtLt_iff _ _ (get_distance_sq_nonneg _ _ _)
  · rw [← Bool.not_eq_true, check_interception_fst_iff_snd]
    simp [Option.eq_none_iff_forall_not_mem]

/- ------------------------------------------------------------------ -/
/- check_boundaries characterization                                   -/
/- ------------------------------------------------------------------ -/

/-- C3: `check_boundaries` returns `OPEN_PLAY` exactly on the inclusive pitch
rectangle; every `x < 0` input gives `CORNER`; every sideline input
(`0 ≤ x ≤ 105`, `y` outside `[0, 68]`) gives `THROW_IN`; and every `x > 105`
input gives `CORNER` or `GOAL_KICK`, `CORNER` exactly when the
`np.random.random()` draw exceeds `0.5`. -/
theorem check_boundaries_correct (rng : RNG) (x y : ℚ) :
    ((check_boundaries rng x y).1 = "OPEN_PLAY" ↔ in_bounds (x, y)) ∧
    (x < 0 → (check_boundaries rng x y).1 = "CORNER") ∧
    (0 ≤ x → x ≤ 105 → ¬(0 ≤ y ∧ y ≤ 68) →
      (check_boundaries rng x y).1 = "THROW_IN") ∧
    (105 < x →
      ((check_boundaries rng x y).1 = "CORNER" ∨
        (check_boundaries rng x y).1 = "GOAL_KICK") ∧
      ((check_boundaries rng x y).1 = "CORNER" ↔
        (1 : ℚ) / 2 < (draw rng).1)) := by
  unfold check_boundaries
  by_cases h1 : 0 ≤ x ∧ x ≤ 105 ∧ 0 ≤ y ∧ y ≤ 68
  · rw [if_pos h1]
    refine ⟨by simpa [in_bounds] using h1, ?_, ?_, ?_⟩
    · intro hx0; exact absurd hx0 (not_lt.mpr h1.1)
    · intro _ _ hy; exact absurd ⟨h1.2.2.1, h1.2.2.2⟩ hy
    · intro hx105; exact absurd hx105 (not_lt.mpr h1.2.1)
  · rw [if_neg h1]
    by_cases h2 : 105 < x
    · rw [if_pos h2]
      refine ⟨?_, ?_, ?_, ?_⟩
      · constructor
        · intro h
          by_cases hc : mkRat 1 2 < (draw rng).1
          · rw [if_pos hc] at h; simp at h
          · rw [if_neg hc] at h; simp at h
        · intro h; exact absurd h h1
      · intro hx0; linarith
      · intro _ hx105 _; linarith
      · intro _
        constructor
        · by_cases hc : mkRat 1 2 < (draw rng).1
          · rw [if_pos hc]; exact Or.inl rfl
          · rw [if_neg hc]; exact Or.inr rfl
        · rw [show (1 : ℚ) / 2 = mkRat 1 2 from half_eq.symm]
          by_cases hc : mkRat 1 2 < (draw rng).1
          · simp [hc]
          · rw [if_neg hc]
            constructor
            · intro h; simp at h
            · intro h; exact absurd h hc
    · rw [if_neg h2]
      by_cases h3 : x < 0
      · rw [if_pos h3]
        refine ⟨?_, fun _ => rfl, ?_, ?_⟩
        · constructor
          · intro h; simp at h
          · intro h; exact absurd h h1
        · intro hx0 _ _; linarith
        · intro h; exact absurd h h2
      · rw [if_neg h3]
        refine ⟨?_, ?_, fun _ _ _ => rfl, ?_⟩
        · constructor
          · intro h; simp at h
          · intro h; exact absurd h h1
        · intro h; exact absurd h h3
        · intro h; exact absurd h h2

/-- C3 witness: concrete instantiation at the sideline input `(50, 75)`. -/
theorem check_boundaries_correct_witness :
    (((check_boundaries [] 50 75).1 = "OPEN_PLAY" ↔ in_bounds (50, 75)) ∧
      ((50 : ℚ) < 0 → (check_boundaries [] 50 75).1 = "CORNER") ∧
      ((0 : ℚ) ≤ 50 → (50 : ℚ) ≤ 105 → ¬((0 : ℚ) ≤ 75 ∧ (75 : ℚ) ≤ 68) →
        (check_boundaries [] 50 75).1 = "THROW_IN") ∧
      ((105 : ℚ) < 50 →
        ((check_boundaries [] 50 75).1 = "CORNER" ∨
          (check_boundaries [] 50 75).1 = "GOAL_KICK") ∧
        ((check_boundaries [] 50 75).1 = "CORNER" ↔
          (1 : ℚ) / 2 < (draw ([] : RNG)).1))) ∧
    (check_boundaries [] 50 75).1 = "THROW_IN" :=
  ⟨check_boundaries_correct [] 50 75,
    (check_boundaries_correct [] 50 75).2.2.1 (by norm_num) (by norm_num)
      (by norm_num)⟩

/- ------------------------------------------------------------------ -/
/- reset                                                               -/
/- ------------------------------------------------------------------ -/

/-- C9: after `reset()` from any state, the ball is back at center field
`[52.5, 34.0]`, the home team has possession, the game state is `OPEN_PLAY`,
the training data is empty, and both teams (hence every player position) are
untouched. -/
theorem reset_correct (s : SimState) :
    (reset s).ball = (105 / 2, 34) ∧
    (reset s).possession = TeamIdx.home ∧
    (reset s).team (reset s).possession = s.home_team ∧
    (reset s).game_state = "OPEN_PLAY" ∧
    get_training_data (reset s) = [] ∧
    (reset s).home_team = s.home_team ∧
    (reset s).away_team = s.away_team := by
  refine ⟨?_, rfl, rfl, rfl, rfl, rfl, rfl⟩
  show ((mkRat 105 2 : ℚ), (34 : ℚ)) = (105 / 2, 34)
  rw [center_eq]

/- ------------------------------------------------------------------ -/
/- Geometry of the point-to-segment distance                           -/
/- ------------------------------------------------------------------ -/

lemma poly_expand (p a b : Pt) (s : ℚ) :
    dist_sq p (segPoint a b s) =
      dotP (vsub p a) (vsub p a) - 2 * s * dotP (vsub p a) (vsub b a) +
        s ^ 2 * dotP (vsub b a) (vsub b a) := by
  unfold dist_sq dotP vsub segPoint
  dsimp only
  ring

lemma clamp01_mem (t : ℚ) : 0 ≤ clamp01 t ∧ clamp01 t ≤ 1 :=
  ⟨le_max_left 0 _, max_le (by norm_num) (min_le_right t 1)⟩

lemma clamp01_closest (t s : ℚ) (h0 : 0 ≤ s) (h1 : s ≤ 1) :
    (clamp01 t - t) ^ 2 ≤ (s - t) ^ 2 := by
  unfold clamp01
  rcases le_total t 0 with h | h
  · rw [min_eq_left (h.trans (by norm_num)), max_eq_left h]
    nlinarith [mul_nonneg h0 (by linarith : (0 : ℚ) ≤ s - 2 * t)]
  · rcases le_total 1 t with h2 | h2
    · rw [min_eq_right h2, max_eq_right (by norm_num)]
      nlinarith [mul_nonneg (by linarith : (0 : ℚ) ≤ 1 - s)
        (by linarith : (0 : ℚ) ≤ 2 * t - s - 1)]
    · rw [min_eq_left h2, max_eq_right h]
      nlinarith [sq_nonneg (s - t)]

lemma distSq_eq_quad (p a b : Pt) (hL : dotP (vsub b a) (vsub b a) ≠ 0) :
    get_distance_sq_point_to_segment p a b =
      dist_sq p (segPoint a b (clamp01 (rawT p a b))) := by
  unfold get_distance_sq_point_to_segment
  rw [if_neg hL]

lemma degenerate_endpoints (a b : Pt) (hL : dotP (vsub b a) (vsub b a) = 0) :
    b.1 = a.1 ∧ b.2 = a.2 := by
  have h := (dotP_self_eq_zero _).mp hL
  unfold vsub at h
  dsimp only at h
  exact ⟨by linarith [h.1], by linarith [h.2]⟩

/-- The clamped projection point minimises the squared distance over the
segment. -/
lemma distSq_min (p a b : Pt) (s : ℚ) (h0 : 0 ≤ s) (h1 : s ≤ 1) :
    get_distance_sq_point_to_segment p a b ≤ dist_sq p (segPoint a b s) := by
  by_cases hL : dotP (vsub b a) (vsub b a) = 0
  · obtain ⟨hb1, hb2⟩ := degenerate_endpoints a b hL
    unfold get_distance_sq_point_to_segment
    rw [if_pos hL]
    unfold dist_sq segPoint vsub dotP
    dsimp only
    rw [hb1, hb2]
    exact le_of_eq (by ring)
  · have hLpos : 0 < dotP (vsub b a) (vsub b a) :=
      lt_of_le_of_ne (dotP_self_nonneg _) (Ne.symm hL)
    have hdd : rawT p a b * dotP (vsub b a) (vsub b a) =
        dotP (vsub p a) (vsub b a) := by
      unfold rawT
      exact div_mul_cancel₀ _ hL
    rw [distSq_eq_quad p a b hL, poly_expand, poly_expand]
    have hc := clamp01_closest (rawT p a b) s h0 h1
    have key := mul_le_mul_of_nonneg_left hc hLpos.le
    have e1 : clamp01 (rawT p a b) *
          (rawT p a b * dotP (vsub b a) (vsub b a)) =
        clamp01 (rawT p a b) * dotP (vsub p a) (vsub b a) := by rw [hdd]
    have e2 : s * (rawT p a b * dotP (vsub b a) (vsub b a)) =
        s * dotP (vsub p a) (vsub b a) := by rw [hdd]
    nlinarith [key, e1, e2]

/-- The distance is attained at a point of the segment. -/
lemma distSq_achieved (p a b : Pt) :
    ∃ t, 0 ≤ t ∧ t ≤ 1 ∧
      get_distance_sq_point_to_segment p a b = dist_sq p (segPoint a b t) := by
  by_cases hL : dotP (vsub b a) (vsub b a) = 0
  · refine ⟨0, le_refl 0, by norm_num, ?_⟩
    obtain ⟨hb1, hb2⟩ := degenerate_endpoints a b hL
    unfold get_distance_sq_point_to_segment
    rw [if_pos hL]
    unfold dist_sq segPoint vsub dotP
    dsimp only
    rw [hb1, hb2]; ring
  · exact ⟨clamp01 (rawT p a b), (clamp01_mem _).1, (clamp01_mem _).2,
      distSq_eq_quad p a b hL⟩

lemma distSq_on_segment (p a b : Pt) (t : ℚ) (h0 : 0 ≤ t) (h1 : t ≤ 1)
    (hp : p = segPoint a b t) :
    get_distance_sq_point_to_segment p a b = 0 := by
  have hle := distSq_min p a b t h0 h1
  rw [← hp] at hle
  have hz : dist_sq p p = 0 := by
    unfold dist_sq vsub dotP
    dsimp only
    ring
  rw [hz] at hle
  exact le_antisymm hle (get_distance_sq_nonneg p a b)

lemma distSq_foot (p a b : Pt) (t : ℚ) (h0 : 0 ≤ t) (h1 : t ≤ 1)
    (hperp : dotP (vsub p (segPoint a b t)) (vsub b a) = 0) :
    get_distance_sq_point_to_segment p a b = dist_sq p (segPoint a b t) := by
  by_cases hL : dotP (vsub b a) (vsub b a) = 0
  · obtain ⟨hb1, hb2⟩ := degenerate_endpoints a b hL
    unfold get_distance_sq_point_to_segment
    rw [if_pos hL]
    unfold dist_sq segPoint vsub dotP
    dsimp only
    rw [hb1, hb2]; ring
  · have hraw : rawT p a b = t := by
      unfold rawT
      rw [div_eq_iff hL]
      unfold dotP vsub segPoint at hperp
      unfold dotP vsub
      dsimp only at hperp ⊢
      linear_combination hperp
    have hclamp : clamp01 t = t := by
      unfold clamp01; rw [min_eq_left h1, max_eq_right h0]
    rw [distSq_eq_quad p a b hL, hraw, hclamp]

lemma distSq_before_start (p a b : Pt)
    (hL : dotP (vsub b a) (vsub b a) ≠ 0)
    (hd : dotP (vsub p a) (vsub b a) ≤ 0) :
    get_distance_sq_point_to_segment p a b = dist_sq p a ∧
      dist_sq p a ≤ dist_sq p b := by
  have hLpos : 0 < dotP (vsub b a) (vsub b a) :=
    lt_of_le_of_ne (dotP_self_nonneg _) (Ne.symm hL)
  have hraw : rawT p a b ≤ 0 := by
    unfold rawT
    exact div_nonpos_iff.mpr (Or.inr ⟨hd, hLpos.le⟩)
  have hclamp : clamp01 (rawT p a b) = 0 := by
    unfold clamp01
    rw [min_eq_left (hraw.trans (by norm_num)), max_eq_left hraw]
  constructor
  · rw [distSq_eq_quad p a b hL, hclamp]
    unfold dist_sq segPoint vsub dotP
    dsimp only
    ring
  · unfold dotP vsub at hLpos hd
    unfold dist_sq dotP vsub
    dsimp only at hLpos hd ⊢
    nlinarith

lemma distSq_beyond_end (p a b : Pt)
    (hL : dotP (vsub b a) (vsub b a) ≠ 0)
    (hd : dotP (vsub b a) (vsub b a) ≤ dotP (vsub p a) (vsub b a)) :
    get_distance_sq_point_to_segment p a b = dist_sq p b ∧
      dist_sq p b ≤ dist_sq p a := by
  have hLpos : 0 < dotP (vsub b a) (vsub b a) :=
    lt_of_le_of_ne (dotP_self_nonneg _) (Ne.symm hL)
  have hraw : 1 ≤ rawT p a b := by
    unfold rawT
    rw [le_div_iff₀ hLpos]
    linarith
  have hclamp : clamp01 (rawT p a b) = 1 := by
    unfold clamp01
    rw [min_eq_right hraw, max_eq_right (by norm_num)]
  constructor
  · rw [distSq_eq_quad p a b hL, hclamp]
    unfold dist_sq segPoint vsub dotP
    dsimp only
    ring
  · unfold dotP vsub at hLpos hd
    unfold dist_sq dotP vsub
    dsimp only at hLpos hd ⊢
    nlinarith

lemma sqrt_cast_le {x y : ℚ} (h : x ≤ y) :
    Real.sqrt (x : ℝ) ≤ Real.sqrt (y : ℝ) :=
  Real.sqrt_le_sqrt (by exact_mod_cast h)

/-- C6: `Real.sqrt` of `get_distance_sq_point_to_segment p a b` is the
shortest Euclidean distance from `p` to the segment `[a, b]`: it is attained
at a segment point and bounds every segment point's distance from below; it
is `0` whenever `p` lies on the segment; it equals the perpendicular offset
whenever the perpendicular foot lies inside the segment; when the projection
falls at or beyond an endpoint it equals the distance to that endpoint, which
is then the nearer one; and for `a = b` it is the direct distance to `a`. -/
theorem get_distance_point_to_segment_correct (p a b : Pt) :
    (∃ t, 0 ≤ t ∧ t ≤ 1 ∧
      Real.sqrt ((get_distance_sq_point_to_segment p a b : ℚ) : ℝ) =
        Real.sqrt ((dist_sq p (segPoint a b t) : ℚ) : ℝ)) ∧
    (∀ t, 0 ≤ t → t ≤ 1 →
      Real.sqrt ((get_distance_sq_point_to_segment p a b : ℚ) : ℝ) ≤
        Real.sqrt ((dist_sq p (segPoint a b t) : ℚ) : ℝ)) ∧
    (∀ t, 0 ≤ t → t ≤ 1 → p = segPoint a b t →
      Real.sqrt ((get_distance_sq_point_to_segment p a b : ℚ) : ℝ) = 0) ∧
    (∀ t, 0 ≤ t → t ≤ 1 →
      dotP (vsub p (segPoint a b t)) (vsub b a) = 0 →
      Real.sqrt ((get_distance_sq_point_to_segment p a b : ℚ) : ℝ) =
        Real.sqrt ((dist_sq p (segPoint a b t) : ℚ) : ℝ)) ∧
    (dotP (vsub b a) (vsub b a) ≠ 0 →
      dotP (vsub p a) (vsub b a) ≤ 0 →
      Real.sqrt ((get_distance_sq_point_to_segment p a b : ℚ) : ℝ) =
          Real.sqrt ((dist_sq p a : ℚ) : ℝ) ∧
        Real.sqrt ((dist_sq p a : ℚ) : ℝ) ≤
          Real.sqrt ((dist_sq p b : ℚ) : ℝ)) ∧
    (dotP (vsub b a) (vsub b a) ≠ 0 →
      dotP (vsub b a) (vsub b a) ≤ dotP (vsub p a) (vsub b a) →
      Real.sqrt ((get_distance_sq_point_to_segment p a b : ℚ) : ℝ) =
          Real.sqrt ((dist_sq p b : ℚ) : ℝ) ∧
        Real.sqrt ((dist_sq p b : ℚ) : ℝ) ≤
          Real.sqrt ((dist_sq p a : ℚ) : ℝ)) ∧
    (a = b →
      Real.sqrt ((get_distance_sq_point_to_segment p a b : ℚ) : ℝ) =
        Real.sqrt ((dist_sq p a : ℚ) : ℝ)) := by
  refine ⟨?_, ?_, ?_, ?_, ?_, ?_, ?_⟩
  · obtain ⟨t, h0, h1, ht⟩ := distSq_achieved p a b
    exact ⟨t, h0, h1, by rw [ht]⟩
  · intro t h0 h1
    exact sqrt_cast_le (distSq_min p a b t h0 h1)
  · intro t h0 h1 hp
    rw [distSq_on_segment p a b t h0 h1 hp]
    simp
  · intro t h0 h1 hperp
    rw [distSq_foot p a b t h0 h1 hperp]
  · intro hL hd
    obtain ⟨he, hcmp⟩ := distSq_before_start p a b hL hd
    exact ⟨by rw [he], sqrt_cast_le hcmp⟩
  · intro hL hd
    obtain ⟨he, hcmp⟩ := distSq_beyond_end p a b hL hd
    exact ⟨by rw [he], sqrt_cast_le hcmp⟩
  · intro hab
    subst hab
    unfold get_distance_sq_point_to_segment
    rw [if_pos (by unfold dotP vsub; dsimp only; ring)]
    rfl

/-- C6 witness: the spec scenario `p = (5, 0)`, `a = (0, 5)`, `b = (10, 5)`,
whose perpendicular foot `(5, 5)` sits at parameter `t = 1/2` inside the
segment. -/
theorem get_distance_point_to_segment_correct_witness :
    (0 : ℚ) ≤ 1 / 2 ∧ (1 / 2 : ℚ) ≤ 1 ∧
    dotP (vsub ((5, 0) : Pt) (segPoint ((0, 5) : Pt) ((10, 5) : Pt) (1 / 2)))
      (vsub ((10, 5) : Pt) ((0, 5) : Pt)) = 0 ∧
    Real.sqrt
        ((get_distance_sq_point_to_segment ((5, 0) : Pt) ((0, 5) : Pt)
          ((10, 5) : Pt) : ℚ) : ℝ) =
      Real.sqrt
        ((dist_sq ((5, 0) : Pt)
          (segPoint ((0, 5) : Pt) ((10, 5) : Pt) (1 / 2)) : ℚ) : ℝ) :=
  ⟨by norm_num, by norm_num, by norm_num [dotP, vsub, segPoint],
    (get_distance_point_to_segment_correct ((5, 0) : Pt) ((0, 5) : Pt)
      ((10, 5) : Pt)).2.2.2.1 (1 / 2) (by norm_num) (by norm_num)
      (by norm_num [dotP, vsub, segPoint])⟩

/- ------------------------------------------------------------------ -/
/- Simulator infrastructure lemmas                                     -/
/- ------------------------------------------------------------------ -/

/-- The intermediate state right after the action dispatch of
`simulate_step`, with the RNG advanced past the boundary check
(definitionally the `s2` of `simulate_step`). -/
def post_boundary (s : SimState) (a : String) (t : Option Pt) : SimState :=
  { (apply_action s (defendingIdx s) a t).1 with
    rng := (check_boundaries (apply_action s (defendingIdx s) a t).1.rng
      (apply_action s (defendingIdx s) a t).1.ball.1
      (apply_action s (defendingIdx s) a t).1.ball.2).2 }

/-- The game state the boundary check of `simulate_step` classifies the
post-action ball position into. -/
def boundary_state (s : SimState) (a : String) (t : Option Pt) : String :=
  (check_boundaries (apply_action s (defendingIdx s) a t).1.rng
    (apply_action s (defendingIdx s) a t).1.ball.1
    (apply_action s (defendingIdx s) a t).1.ball.2).1

/-- The state of `simulate_step` after set-piece resolution, before the event
is appended (definitionally the `s3` of `simulate_step`). -/
def final_core (s : SimState) (a : String) (t : Option Pt) : SimState :=
  if boundary_state s a t ≠ "OPEN_PLAY" then
    { resolve_set_piece (boundary_state s a t)
        (post_boundary s a t).possession (defendingIdx s)
        (post_boundary s a t) with
      game_state := boundary_state s a t }
  else { post_boundary s a t with game_state := "OPEN_PLAY" }

lemma step_result (s : SimState) (a : String) (t : Option Pt) :
    (simulate_step s a t).1.result =
      (apply_action s (defendingIdx s) a t).2.1 := rfl

lemma step_interceptor (s : SimState) (a : String) (t : Option Pt) :
    (simulate_step s a t).1.interceptor =
      (apply_action s (defendingIdx s) a t).2.2 := rfl

lemma step_set_piece (s : SimState) (a : String) (t : Option Pt) :
    (simulate_step s a t).1.set_piece =
      if boundary_state s a t ≠ "OPEN_PLAY" then some (boundary_state s a t)
      else none := rfl

lemma step_ball_after (s : SimState) (a : String) (t : Option Pt) :
    (simulate_step s a t).1.ball_pos_after = (final_core s a t).ball := rfl

lemma step_snd_ball (s : SimState) (a : String) (t : Option Pt) :
    (simulate_step s a t).2.ball = (final_core s a t).ball := rfl

lemma step_snd_possession (s : SimState) (a : String) (t : Option Pt) :
    (simulate_step s a t).2.possession = (final_core s a t).possession := rfl

lemma step_snd_game_state (s : SimState) (a : String) (t : Option Pt) :
    (simulate_step s a t).2.game_state = (final_core s a t).game_state := rfl

lemma step_snd_team (s : SimState) (a : String) (t : Option Pt) (j : TeamIdx) :
    (simulate_step s a t).2.team j = (final_core s a t).team j := by
  cases j <;> rfl

/-- The action dispatch only ever rewrites the ball and the possession
pointer. -/
lemma apply_action_shape (s : SimState) (i : TeamIdx) (a : String)
    (t : Option Pt) :
    ∃ b q, (apply_action s i a t).1 = { s with ball := b, possession := q }
      := by
  unfold apply_action
  cases t with
  | none => exact ⟨s.ball, s.possession, rfl⟩
  | some tgt =>
    dsimp only
    by_cases h1 : a = "PASS"
    · rw [if_pos h1]
      rcases hci : check_interception s.ball tgt (s.team i).players 2
        with ⟨fst, snd⟩
      cases snd with
      | some d => exact ⟨d.position, i, rfl⟩
      | none => exact ⟨tgt, s.possession, rfl⟩
    · rw [if_neg h1]
      by_cases h2 : a = "SHOOT"
      · rw [if_pos h2]; exact ⟨tgt, s.possession, rfl⟩
      · rw [if_neg h2]
        by_cases h3 : a = "DRIBBLE"
        · rw [if_pos h3]; exact ⟨tgt, s.possession, rfl⟩
        · rw [if_neg h3]; exact ⟨s.ball, s.possession, rfl⟩

lemma apply_action_fields (s : SimState) (i : TeamIdx) (a : String)
    (t : Option Pt) :
    (apply_action s i a t).1.rng = s.rng ∧
    (apply_action s i a t).1.events = s.events ∧
    (apply_action s i a t).1.game_state = s.game_state ∧
    (apply_action s i a t).1.home_team = s.home_team ∧
    (apply_action s i a t).1.away_team = s.away_team := by
  obtain ⟨b, q, h⟩ := apply_action_shape s i a t
  rw [h]
  exact ⟨rfl, rfl, rfl, rfl, rfl⟩

lemma apply_action_team (s : SimState) (i : TeamIdx) (a : String)
    (t : Option Pt) (j : TeamIdx) :
    (apply_action s i a t).1.team j = s.team j := by
  obtain ⟨b, q, h⟩ := apply_action_shape s i a t
  rw [h]
  cases j <;> rfl

lemma check_boundaries_in (rng : RNG) (p : Pt) (h : in_bounds p) :
    check_boundaries rng p.1 p.2 = ("OPEN_PLAY", rng) := by
  unfold in_bounds at h
  unfold check_boundaries
  rw [if_pos h]

/-- When the post-action ball position is in bounds, the boundary phase of
`simulate_step` does nothing: no set piece, the ball stays where the action
put it, possession is the post-action possession, and the game state is
`OPEN_PLAY`. -/
lemma simulate_step_open (s : SimState) (a : String) (t : Option Pt)
    (h : in_bounds (apply_action s (defendingIdx s) a t).1.ball) :
    (simulate_step s a t).1.ball_pos_after =
      (apply_action s (defendingIdx s) a t).1.ball ∧
    (simulate_step s a t).2.ball =
      (apply_action s (defendingIdx s) a t).1.ball ∧
    (simulate_step s a t).1.set_piece = none ∧
    (simulate_step s a t).2.game_state = "OPEN_PLAY" ∧
    (simulate_step s a t).2.possession =
      (apply_action s (defendingIdx s) a t).1.possession := by
  have hcb := check_boundaries_in (apply_action s (defendingIdx s) a t).1.rng
    (apply_action s (defendingIdx s) a t).1.ball h
  have hbs : boundary_state s a t = "OPEN_PLAY" := by
    unfold boundary_state
    rw [hcb]
  have hfc : final_core s a t = { post_boundary s a t with
      game_state := "OPEN_PLAY" } := by
    unfold final_core
    rw [if_neg (by rw [hbs]; exact fun hne => hne rfl)]
  refine ⟨?_, ?_, ?_, ?_, ?_⟩
  · rw [step_ball_after, hfc]; rfl
  · rw [step_snd_ball, hfc]; rfl
  · rw [step_set_piece, if_neg (by rw [hbs]; exact fun hne => hne rfl)]
  · rw [step_snd_game_state, hfc]
  · rw [step_snd_possession, hfc]; rfl

lemma check_interception_mem (a b : Pt) (ds : List Player) (r : ℚ)
    (d : Player) (h : (check_interception a b ds r).2 = some d) : d ∈ ds := by
  rw [check_interception_snd] at h
  exact List.mem_of_find?_eq_some h

/- Concrete fixture states used by counterexamples and witnesses. -/

def hTeam : Team := ⟨"H", [⟨"HGK", (5, 34), "GK", mkRat 1 2⟩]⟩
def aTeam : Team := ⟨"A", [⟨"AGK", (100, 34), "GK", mkRat 1 2⟩]⟩
def aEmpty : Team := ⟨"A", []⟩
def sThrow : SimState := mkSimulator hTeam aTeam []
def sOut : SimState :=
  { mkSimulator hTeam aTeam [mkRat 3 5, mkRat 2 5] with ball := (110, 34) }
def sNoDef : SimState := mkSimulator hTeam aEmpty []
def sPassOut : SimState := mkSimulator hTeam aEmpty [0]

/- ------------------------------------------------------------------ -/
/- C1: outcomes of a PASS step                                         -/
/- ------------------------------------------------------------------ -/

/-- C1 counterexample: a pass with no defenders toward `(110, 34)` records
`SUCCESS`, but the boundary phase then converts the out-of-bounds position
into a goal kick, so at the END of the step the ball is NOT at the target
(and the interception outcome does not hold either) — the claimed
end-of-step dichotomy fails. -/
theorem pass_end_of_step_counterexample :
    (simulate_step sPassOut "PASS" (some (110, 34))).1.result =
      some "SUCCESS" ∧
    (simulate_step sPassOut "PASS" (some (110, 34))).1.ball_pos_after ≠
      ((110 : ℚ), (34 : ℚ)) ∧
    (simulate_step sPassOut "PASS" (some (110, 34))).1.result ≠
      some "INTERCEPTED" ∧
    (simulate_step sPassOut "PASS" (some (110, 34))).1.ball_pos_after =
      ((5 : ℚ), (34 : ℚ)) := by decide

/-- C1 (amended): immediately after the PASS dispatch, exactly one of the two
outcomes holds — `SUCCESS` with the ball copied to the target and possession
unchanged, or `INTERCEPTED` with the ball copied to a defender's position,
that defender's name recorded, and possession flipped to the defending team;
and whenever the post-action ball position is still in bounds the same
result, ball position and possession survive to the end of the step. -/
theorem pass_outcomes (s : SimState) (tgt : Pt) :
    Xor'
      ((apply_action s (defendingIdx s) "PASS" (some tgt)).2.1 =
          some "SUCCESS" ∧
        (apply_action s (defendingIdx s) "PASS" (some tgt)).1.ball = tgt ∧
        (apply_action s (defendingIdx s) "PASS" (some tgt)).1.possession =
          s.possession)
      ((apply_action s (defendingIdx s) "PASS" (some tgt)).2.1 =
          some "INTERCEPTED" ∧
        ∃ d ∈ (s.team (defendingIdx s)).players,
          (apply_action s (defendingIdx s) "PASS" (some tgt)).2.2 =
            some d.name ∧
          (apply_action s (defendingIdx s) "PASS" (some tgt)).1.ball =
            d.position ∧
          (apply_action s (defendingIdx s) "PASS" (some tgt)).1.possession =
            defendingIdx s) ∧
    (in_bounds (apply_action s (defendingIdx s) "PASS" (some tgt)).1.ball →
      (simulate_step s "PASS" (some tgt)).1.result =
        (apply_action s (defendingIdx s) "PASS" (some tgt)).2.1 ∧
      (simulate_step s "PASS" (some tgt)).1.ball_pos_after =
        (apply_action s (defendingIdx s) "PASS" (some tgt)).1.ball ∧
      (simulate_step s "PASS" (some tgt)).2.possession =
        (apply_action s (defendingIdx s) "PASS" (some tgt)).1.possession) := by
  constructor
  · unfold apply_action
    dsimp only
    rw [if_pos rfl]
    rcases hci : check_interception s.ball tgt
      (s.team (defendingIdx s)).players 2 with ⟨fst, snd⟩
    cases snd with
    | some d =>
      dsimp only
      refine Or.inr ⟨⟨rfl, d,
        check_interception_mem _ _ _ _ d (by rw [hci]), rfl, rfl, rfl⟩, ?_⟩
      rintro ⟨hA, -⟩
      exact absurd hA (by decide)
    | none =>
      dsimp only
      refine Or.inl ⟨⟨rfl, rfl, rfl⟩, ?_⟩
      rintro ⟨hB, -⟩
      exact absurd hB (by decide)
  · intro h
    obtain ⟨hba, hsb, hsp, hgs, hpos⟩ :=
      simulate_step_open s "PASS" (some tgt) h
    exact ⟨step_result s "PASS" (some tgt), hba, hpos⟩

/-- C1 witness: a pass with no defenders to the in-bounds target `(60, 40)`;
the in-bounds hypothesis of the end-of-step clause is discharged by
evaluation. -/
theorem pass_outcomes_witness :
    in_bounds
      (apply_action sNoDef (defendingIdx sNoDef) "PASS"
        (some (60, 40))).1.ball ∧
    ((simulate_step sNoDef "PASS" (some (60, 40))).1.result =
        (apply_action sNoDef (defendingIdx sNoDef) "PASS"
          (some (60, 40))).2.1 ∧
      (simulate_step sNoDef "PASS" (some (60, 40))).1.ball_pos_after =
        (apply_action sNoDef (defendingIdx sNoDef) "PASS"
          (some (60, 40))).1.ball ∧
      (simulate_step sNoDef "PASS" (some (60, 40))).2.possession =
        (apply_action sNoDef (defendingIdx sNoDef) "PASS"
          (some (60, 40))).1.possession) :=
  ⟨by decide, (pass_outcomes sNoDef (60, 40)).2 (by decide)⟩

/- ------------------------------------------------------------------ -/
/- C4: the THROW_IN step relocates the ball                            -/
/- ------------------------------------------------------------------ -/

/-- C4 evidence: shooting from the initial state to the sideline point
`(50, 75)` classifies as `THROW_IN`, and the step then assigns the
`resolve_set_piece` placeholder `[0, 0]` to the ball instead of leaving it
unchanged at `(50, 75)`. -/
theorem throw_in_ball_relocated :
    (simulate_step sThrow "SHOOT" (some (50, 75))).1.set_piece =
      some "THROW_IN" ∧
    (simulate_step sThrow "SHOOT" (some (50, 75))).1.ball_pos_after =
      ((0 : ℚ), (0 : ℚ)) ∧
    (simulate_step sThrow "SHOOT" (some (50, 75))).1.ball_pos_after ≠
      ((50 : ℚ), (75 : ℚ)) ∧
    (simulate_step sThrow "SHOOT" (some (50, 75))).2.ball =
      ((0 : ℚ), (0 : ℚ)) := by decide

/- ------------------------------------------------------------------ -/
/- C7: determinism of a run                                            -/
/- ------------------------------------------------------------------ -/

/-- C7 (determinism half): two simulators built from equal teams, with equal
random streams, executing the same ordered action sequence, produce equal
event logs.  (The injectability half of the claim fails on the source, which
calls module-global `np.random` directly; see RESULTS.) -/
theorem run_deterministic (h1 h2 a1 a2 : Team) (r1 r2 : RNG)
    (acts : List (String × Option Pt)) (hh : h1 = h2) (ha : a1 = a2)
    (hr : r1 = r2) :
    get_training_data (run (mkSimulator h1 a1 r1) acts) =
      get_training_data (run (mkSimulator h2 a2 r2) acts) := by
  rw [hh, ha, hr]

/-- C7 witness: a concrete one-pass run. -/
theorem run_deterministic_witness :
    hTeam = hTeam ∧ aTeam = aTeam ∧ ([mkRat 3 10] : RNG) = [mkRat 3 10] ∧
    get_training_data
        (run (mkSimulator hTeam aTeam [mkRat 3 10]) [("PASS", some (60, 40))]) =
      get_training_data
        (run (mkSimulator hTeam aTeam [mkRat 3 10]) [("PASS", some (60, 40))]) :=
  ⟨rfl, rfl, rfl,
    run_deterministic hTeam hTeam aTeam aTeam [mkRat 3 10] [mkRat 3 10]
      [("PASS", some (60, 40))] rfl rfl rfl⟩

/- ------------------------------------------------------------------ -/
/- C8: unknown action / missing target                                 -/
/- ------------------------------------------------------------------ -/

/-- C8 counterexample: with the ball staged out of bounds at `(110, 34)`
(direct field access the design allows), an unknown action `"FOO"` is a
no-op for the dispatch — yet the step still runs the boundary phase, which
moves the ball to the corner spot `(105, 0)`; so "the ball's position is
unchanged by the step" fails as universally stated. -/
theorem noop_ball_moved_counterexample :
    (simulate_step sOut "FOO" none).1.result = none ∧
    (simulate_step sOut "FOO" none).1.ball_pos_after =
      ((105 : ℚ), (0 : ℚ)) ∧
    (simulate_step sOut "FOO" none).1.ball_pos_after ≠
      ((110 : ℚ), (34 : ℚ)) := by decide

/-- C8 (amended): for an unknown action string, or a null target, the
dispatch is a total no-op (state returned unchanged) and the event carries
no `result` and no `interceptor`; and whenever the ball is within bounds at
the start of the step, the whole step leaves the ball unchanged and stamps
no set piece. -/
theorem noop_actions (s : SimState) (a : String) (t : Option Pt)
    (h : (a ≠ "PASS" ∧ a ≠ "SHOOT" ∧ a ≠ "DRIBBLE") ∨ t = none) :
    (simulate_step s a t).1.result = none ∧
    (simulate_step s a t).1.interceptor = none ∧
    (apply_action s (defendingIdx s) a t).1 = s ∧
    (in_bounds s.ball →
      (simulate_step s a t).1.ball_pos_after = s.ball ∧
      (simulate_step s a t).2.ball = s.ball ∧
      (simulate_step s a t).1.set_piece = none) := by
  have hnoop : apply_action s (defendingIdx s) a t = (s, none, none) := by
    unfold apply_action
    cases t with
    | none => rfl
    | some tgt =>
      dsimp only
      rcases h with ⟨h1, h2, h3⟩ | h4
      · rw [if_neg h1, if_neg h2, if_neg h3]
      · exact Option.noConfusion h4
  refine ⟨?_, ?_, ?_, ?_⟩
  · rw [step_result, hnoop]
  · rw [step_interceptor, hnoop]
  · rw [hnoop]
  · intro hb
    obtain ⟨hba, hsb, hsp, hgs, hpos⟩ :=
      simulate_step_open s a t (by rw [hnoop]; exact hb)
    refine ⟨?_, ?_, hsp⟩
    · rw [hba, hnoop]
    · rw [hsb, hnoop]

/-- C8 witness: the unknown action `"FOO"` with no target, from the
in-bounds initial state. -/
theorem noop_actions_witness :
    ((("FOO" : String) ≠ "PASS" ∧ ("FOO" : String) ≠ "SHOOT" ∧
        ("FOO" : String) ≠ "DRIBBLE") ∨ (none : Option Pt) = none) ∧
    ((simulate_step sThrow "FOO" none).1.result = none ∧
      (simulate_step sThrow "FOO" none).1.interceptor = none ∧
      (apply_action sThrow (defendingIdx sThrow) "FOO" none).1 = sThrow ∧
      (in_bounds sThrow.ball →
        (simulate_step sThrow "FOO" none).1.ball_pos_after = sThrow.ball ∧
        (simulate_step sThrow "FOO" none).2.ball = sThrow.ball ∧
        (simulate_step sThrow "FOO" none).1.set_piece = none)) :=
  ⟨Or.inr rfl, noop_actions sThrow "FOO" none (Or.inr rfl)⟩

/- ------------------------------------------------------------------ -/
/- C10: empty roster                                                   -/
/- ------------------------------------------------------------------ -/

/-- C10: `check_interception` with an empty defender list returns
`(false, none)`, and a PASS against an empty defending roster is total:
it records `SUCCESS`, no interceptor, keeps possession, and copies the ball
to the target (which survives the whole step whenever the target is in
bounds). -/
theorem empty_roster_pass (a b : Pt) (r : ℚ) (s : SimState) (tgt : Pt)
    (h : (s.team (defendingIdx s)).players = []) :
    check_interception a b [] r = (false, none) ∧
    (simulate_step s "PASS" (some tgt)).1.result = some "SUCCESS" ∧
    (simulate_step s "PASS" (some tgt)).1.interceptor = none ∧
    (apply_action s (defendingIdx s) "PASS" (some tgt)).1.ball = tgt ∧
    (apply_action s (defendingIdx s) "PASS" (some tgt)).1.possession =
      s.possession ∧
    (in_bounds tgt →
      (simulate_step s "PASS" (some tgt)).1.ball_pos_after = tgt ∧
      (simulate_step s "PASS" (some tgt)).2.ball = tgt) := by
  have hap : apply_action s (defendingIdx s) "PASS" (some tgt) =
      ({ s with ball := tgt }, some "SUCCESS", none) := by
    unfold apply_action
    dsimp only
    rw [if_pos rfl, h]
    rfl
  refine ⟨rfl, ?_, ?_, ?_, ?_, ?_⟩
  · rw [step_result, hap]
  · rw [step_interceptor, hap]
  · rw [hap]
  · rw [hap]
  · intro hb
    obtain ⟨hba, hsb, hsp, hgs, hpos⟩ :=
      simulate_step_open s "PASS" (some tgt) (by rw [hap]; exact hb)
    constructor
    · rw [hba, hap]
    · rw [hsb, hap]

/-- C10 witness: a pass to `(60, 40)` against the empty away roster. -/
theorem empty_roster_pass_witness :
    (sNoDef.team (defendingIdx sNoDef)).players = [] ∧
    (check_interception (0, 0) (10, 0) [] 2 = (false, none) ∧
      (simulate_step sNoDef "PASS" (some (60, 40))).1.result =
        some "SUCCESS" ∧
      (simulate_step sNoDef "PASS" (some (60, 40))).1.interceptor = none ∧
      (apply_action sNoDef (defendingIdx sNoDef) "PASS"
          (some (60, 40))).1.ball = (60, 40) ∧
      (apply_action sNoDef (defendingIdx sNoDef) "PASS"
          (some (60, 40))).1.possession = sNoDef.possession ∧
      (in_bounds ((60, 40) : Pt) →
        (simulate_step sNoDef "PASS" (some (60, 40))).1.ball_pos_after =
          (60, 40) ∧
        (simulate_step sNoDef "PASS" (some (60, 40))).2.ball = (60, 40))) :=
  ⟨by decide, empty_roster_pass (0, 0) (10, 0) 2 sNoDef (60, 40) (by decide)⟩

/- ------------------------------------------------------------------ -/
/- C5: corner and goal-kick resolution                                 -/
/- ------------------------------------------------------------------ -/

lemma goodRNG_draw (rng : RNG) (h : goodRNG rng) :
    (0 ≤ (draw rng).1 ∧ (draw rng).1 < 1) ∧ goodRNG (draw rng).2 := by
  cases rng with
  | nil => exact ⟨⟨le_refl 0, show (0 : ℚ) < 1 by norm_num⟩, h⟩
  | cons r rest =>
    exact ⟨h r (List.mem_cons_self r rest),
      fun x hx => h x (List.mem_cons_of_mem r hx)⟩

lemma check_boundaries_rng_good (rng : RNG) (x y : ℚ) (h : goodRNG rng) :
    goodRNG (check_boundaries rng x y).2 := by
  unfold check_boundaries
  split_ifs
  · exact h
  · exact (goodRNG_draw rng h).2
  · exact (goodRNG_draw rng h).2
  · exact h
  · exact h

lemma uniform_bounds (lo hi : ℚ) (rng : RNG) (h : goodRNG rng)
    (hle : lo ≤ hi) :
    (lo ≤ (uniform lo hi rng).1 ∧ (uniform lo hi rng).1 ≤ hi) ∧
      goodRNG (uniform lo hi rng).2 := by
  obtain ⟨⟨h0, h1⟩, hg⟩ := goodRNG_draw rng h
  unfold uniform
  dsimp only
  refine ⟨⟨?_, ?_⟩, hg⟩
  · nlinarith [mul_nonneg h0 (by linarith : (0 : ℚ) ≤ hi - lo)]
  · nlinarith [mul_nonneg (by linarith : (0 : ℚ) ≤ 1 - (draw rng).1)
      (by linarith : (0 : ℚ) ≤ hi - lo)]

lemma scramble_attacking_spec (ps : List Player) (rng : RNG)
    (h : goodRNG rng) :
    (∀ q ∈ (scramble_attacking ps rng).1,
      q.position_role ≠ "GK" → in_box q.position) ∧
    goodRNG (scramble_attacking ps rng).2 := by
  induction ps generalizing rng with
  | nil =>
    constructor
    · intro q hq
      exact absurd hq (List.not_mem_nil q)
    · exact h
  | cons p ps ih =>
    by_cases hgk : p.position_role = "GK"
    · have hrest := ih rng h
      unfold scramble_attacking
      rw [if_pos hgk]
      dsimp only
      refine ⟨?_, hrest.2⟩
      intro q hq hrole
      rcases List.mem_cons.mp hq with rfl | hq2
      · exact absurd hgk hrole
      · exact hrest.1 q hq2 hrole
    · have hx := uniform_bounds 95 104 rng h (by norm_num)
      have hy := uniform_bounds 20 48 (uniform 95 104 rng).2 hx.2
        (by norm_num)
      have hrest := ih (uniform 20 48 (uniform 95 104 rng).2).2 hy.2
      unfold scramble_attacking
      rw [if_neg hgk]
      dsimp only
      refine ⟨?_, hrest.2⟩
      intro q hq hrole
      rcases List.mem_cons.mp hq with rfl | hq2
      · exact ⟨hx.1.1, hx.1.2, hy.1.1, hy.1.2⟩
      · exact hrest.1 q hq2 hrole

lemma scramble_defending_spec (ps : List Player) (rng : RNG)
    (h : goodRNG rng) :
    (∀ q ∈ (scramble_defending ps rng).1,
      (q.position_role = "GK" → q.position = ((104 : ℚ), (34 : ℚ))) ∧
      (q.position_role ≠ "GK" → in_box q.position)) ∧
    goodRNG (scramble_defending ps rng).2 := by
  induction ps generalizing rng with
  | nil =>
    constructor
    · intro q hq
      exact absurd hq (List.not_mem_nil q)
    · exact h
  | cons p ps ih =>
    by_cases hgk : p.position_role = "GK"
    · have hrest := ih rng h
      unfold scramble_defending
      rw [if_pos hgk]
      dsimp only
      refine ⟨?_, hrest.2⟩
      intro q hq
      rcases List.mem_cons.mp hq with rfl | hq2
      · exact ⟨fun _ => rfl, fun hrole => absurd hgk hrole⟩
      · exact hrest.1 q hq2
    · have hx := uniform_bounds 95 104 rng h (by norm_num)
      have hy := uniform_bounds 20 48 (uniform 95 104 rng).2 hx.2
        (by norm_num)
      have hrest := ih (uniform 20 48 (uniform 95 104 rng).2).2 hy.2
      unfold scramble_defending
      rw [if_neg hgk]
      dsimp only
      refine ⟨?_, hrest.2⟩
      intro q hq
      rcases List.mem_cons.mp hq with rfl | hq2
      · exact ⟨fun hrole => absurd hrole hgk,
          fun _ => ⟨hx.1.1, hx.1.2, hy.1.1, hy.1.2⟩⟩
      · exact hrest.1 q hq2

lemma team_update_ball_rng (s : SimState) (b : Pt) (r : RNG) (j : TeamIdx) :
    ({ s with ball := b, rng := r } : SimState).team j = s.team j := by
  cases j <;> rfl

lemma team_setPlayers_self (s : SimState) (i : TeamIdx) (ps : List Player) :
    (s.setPlayers i ps).team i = { s.team i with players := ps } := by
  cases i <;> rfl

lemma team_setPlayers_other (s : SimState) (i j : TeamIdx) (ps : List Player)
    (h : j ≠ i) : (s.setPlayers i ps).team j = s.team j := by
  cases i <;> cases j <;> first | rfl | exact absurd rfl h

lemma setPlayers_possession (s : SimState) (i : TeamIdx) (ps : List Player) :
    (s.setPlayers i ps).possession = s.possession := by
  cases i <;> rfl

/-- The `CORNER` branch of `resolve_set_piece`, with the `let` chain spelled
out (pure zeta reduction of the definition). -/
lemma resolve_corner_eq (i j : TeamIdx) (s : SimState) :
    resolve_set_piece "CORNER" i j s =
      { (s.setPlayers i
            (scramble_attacking (s.team i).players (draw s.rng).2).1).setPlayers
          j
          (scramble_defending
            (((s.setPlayers i
                (scramble_attacking (s.team i).players
                  (draw s.rng).2).1).team j).players)
            (scramble_attacking (s.team i).players (draw s.rng).2).2).1 with
        ball := (105, if (draw s.rng).1 < mkRat 1 2 then 0 else 68)
        rng := (scramble_defending
            (((s.setPlayers i
                (scramble_attacking (s.team i).players
                  (draw s.rng).2).1).team j).players)
            (scramble_attacking (s.team i).players (draw s.rng).2).2).2 } := by
  unfold resolve_set_piece
  rw [if_pos rfl]

lemma resolve_preserves_possession (st : String) (i j : TeamIdx)
    (s : SimState) : (resolve_set_piece st i j s).possession = s.possession
      := by
  unfold resolve_set_piece
  split_ifs
  · dsimp only
    rw [setPlayers_possession, setPlayers_possession]
  · rfl
  · rfl

/-- The `CORNER` resolution: ball at `(105, 0)` or `(105, 68)`, every
non-goalkeeper of the designated attacking slot in the box, the defending
goalkeeper on the line at `(104, 34)` and every other defender in the box. -/
lemma resolve_corner (i j : TeamIdx) (s : SimState) (h : goodRNG s.rng) :
    (resolve_set_piece "CORNER" i j s).ball.1 = 105 ∧
    ((resolve_set_piece "CORNER" i j s).ball.2 = 0 ∨
      (resolve_set_piece "CORNER" i j s).ball.2 = 68) ∧
    (∀ q ∈ ((resolve_set_piece "CORNER" i j s).team i).players,
      q.position_role ≠ "GK" → in_box q.position) ∧
    (∀ q ∈ ((resolve_set_piece "CORNER" i j s).team j).players,
      (q.position_role = "GK" → q.position = ((104 : ℚ), (34 : ℚ))) ∧
      (q.position_role ≠ "GK" → in_box q.position)) := by
  have hd := goodRNG_draw s.rng h
  have hatk := scramble_attacking_spec (s.team i).players (draw s.rng).2 hd.2
  have hdfn := scramble_defending_spec
    (((s.setPlayers i
        (scramble_attacking (s.team i).players (draw s.rng).2).1).team
      j).players)
    (scramble_attacking (s.team i).players (draw s.rng).2).2 hatk.2
  rw [resolve_corner_eq]
  refine ⟨rfl, ?_, ?_, ?_⟩
  · dsimp only
    by_cases hc : (draw s.rng).1 < mkRat 1 2
    · rw [if_pos hc]; exact Or.inl rfl
    · rw [if_neg hc]; exact Or.inr rfl
  · rw [team_update_ball_rng]
    by_cases hij : i = j
    · subst hij
      rw [team_setPlayers_self]
      intro q hq hrole
      exact ((hdfn.1 q hq).2) hrole
    · rw [team_setPlayers_other _ _ _ _ hij, team_setPlayers_self]
      intro q hq hrole
      exact hatk.1 q hq hrole
  · rw [team_update_ball_rng, team_setPlayers_self]
    intro q hq
    exact hdfn.1 q hq

/-- C5: whenever the boundary phase of `simulate_step` stamps a `CORNER`, the
ball ends at `(105, 0)` or `(105, 68)`, the game state becomes `CORNER`,
every non-goalkeeper of the team at the possession slot is inside the box
`[95, 104] × [20, 48]`, the defending goalkeeper is at `(104, 34)` and every
other defender is inside the box; whenever it stamps a `GOAL_KICK`, the ball
ends at `(5, 34)` and the game state becomes `GOAL_KICK`; and any stamped
set piece equals the new game state. -/
theorem corner_goal_kick_correct (s : SimState) (a : String) (t : Option Pt)
    (h : goodRNG s.rng) :
    ((simulate_step s a t).1.set_piece = some "CORNER" →
      (simulate_step s a t).1.ball_pos_after.1 = 105 ∧
      ((simulate_step s a t).1.ball_pos_after.2 = 0 ∨
        (simulate_step s a t).1.ball_pos_after.2 = 68) ∧
      (simulate_step s a t).2.game_state = "CORNER" ∧
      (∀ q ∈ ((simulate_step s a t).2.team
          (simulate_step s a t).2.possession).players,
        q.position_role ≠ "GK" → in_box q.position) ∧
      (∀ q ∈ ((simulate_step s a t).2.team (defendingIdx s)).players,
        (q.position_role = "GK" → q.position = ((104 : ℚ), (34 : ℚ))) ∧
        (q.position_role ≠ "GK" → in_box q.position))) ∧
    ((simulate_step s a t).1.set_piece = some "GOAL_KICK" →
      (simulate_step s a t).1.ball_pos_after = ((5 : ℚ), (34 : ℚ)) ∧
      (simulate_step s a t).2.game_state = "GOAL_KICK") ∧
    (∀ st, (simulate_step s a t).1.set_piece = some st →
      (simulate_step s a t).2.game_state = st) := by
  have hrg : goodRNG (post_boundary s a t).rng := by
    have har := (apply_action_fields s (defendingIdx s) a t).1
    exact check_boundaries_rng_good _ _ _ (har ▸ h)
  have hset : ∀ st, (simulate_step s a t).1.set_piece = some st →
      boundary_state s a t = st ∧ boundary_state s a t ≠ "OPEN_PLAY" := by
    intro st hst
    rw [step_set_piece] at hst
    by_cases hb : boundary_state s a t ≠ "OPEN_PLAY"
    · rw [if_pos hb] at hst
      exact ⟨Option.some.inj hst, hb⟩
    · rw [if_neg hb] at hst
      exact Option.noConfusion hst
  have hgs : ∀ st, (simulate_step s a t).1.set_piece = some st →
      (simulate_step s a t).2.game_state = st := by
    intro st hst
    obtain ⟨hbst, hb⟩ := hset st hst
    rw [step_snd_game_state]
    unfold final_core
    rw [if_pos hb]
    exact hbst
  refine ⟨?_, ?_, hgs⟩
  · intro hst
    obtain ⟨hbst, hb⟩ := hset "CORNER" hst
    have hfc : final_core s a t =
        { resolve_set_piece "CORNER" (post_boundary s a t).possession
            (defendingIdx s) (post_boundary s a t) with
          game_state := "CORNER" } := by
      unfold final_core
      rw [if_pos hb, hbst]
    have hrc := resolve_corner (post_boundary s a t).possession
      (defendingIdx s) (post_boundary s a t) hrg
    have hpos : (simulate_step s a t).2.possession =
        (post_boundary s a t).possession := by
      rw [step_snd_possession, hfc]
      exact resolve_preserves_possession "CORNER" _ _ _
    refine ⟨?_, ?_, ?_, ?_, ?_⟩
    · rw [step_ball_after, hfc]
      exact hrc.1
    · rw [step_ball_after, hfc]
      exact hrc.2.1
    · rw [step_snd_game_state, hfc]
    · rw [hpos, step_snd_team, hfc]
      exact hrc.2.2.1
    · rw [step_snd_team, hfc]
      exact hrc.2.2.2
  · intro hst
    obtain ⟨hbst, hb⟩ := hset "GOAL_KICK" hst
    have hfc : final_core s a t =
        { resolve_set_piece "GOAL_KICK" (post_boundary s a t).possession
            (defendingIdx s) (post_boundary s a t) with
          game_state := "GOAL_KICK" } := by
      unfold final_core
      rw [if_pos hb, hbst]
    have hre : resolve_set_piece "GOAL_KICK"
        (post_boundary s a t).possession (defendingIdx s)
        (post_boundary s a t) =
        { post_boundary s a t with ball := (5, 34) } := by
      unfold resolve_set_piece
      rw [if_neg (by decide), if_pos rfl]
    constructor
    · rw [step_ball_after, hfc, hre]
    · rw [step_snd_game_state, hfc]

/-- C5 witness: shooting at `(110, 34)` with the first draw `3/5 > 0.5`
forcing `CORNER` and the second draw `2/5 < 0.5` picking the `y = 0` side. -/
theorem corner_goal_kick_correct_witness :
    goodRNG [mkRat 3 5, mkRat 2 5] ∧
    (((simulate_step (mkSimulator hTeam aTeam [mkRat 3 5, mkRat 2 5]) "SHOOT"
          (some (110, 34))).1.set_piece = some "CORNER" →
      (simulate_step (mkSimulator hTeam aTeam [mkRat 3 5, mkRat 2 5]) "SHOOT"
          (some (110, 34))).1.ball_pos_after.1 = 105 ∧
      ((simulate_step (mkSimulator hTeam aTeam [mkRat 3 5, mkRat 2 5]) "SHOOT"
          (some (110, 34))).1.ball_pos_after.2 = 0 ∨
        (simulate_step (mkSimulator hTeam aTeam [mkRat 3 5, mkRat 2 5])
            "SHOOT" (some (110, 34))).1.ball_pos_after.2 = 68) ∧
      (simulate_step (mkSimulator hTeam aTeam [mkRat 3 5, mkRat 2 5]) "SHOOT"
          (some (110, 34))).2.game_state = "CORNER" ∧
      (∀ q ∈ ((simulate_step (mkSimulator hTeam aTeam [mkRat 3 5, mkRat 2 5])
            "SHOOT" (some (110, 34))).2.team
          (simulate_step (mkSimulator hTeam aTeam [mkRat 3 5, mkRat 2 5])
            "SHOOT" (some (110, 34))).2.possession).players,
        q.position_role ≠ "GK" → in_box q.position) ∧
      (∀ q ∈ ((simulate_step (mkSimulator hTeam aTeam [mkRat 3 5, mkRat 2 5])
            "SHOOT" (some (110, 34))).2.team
          (defendingIdx
            (mkSimulator hTeam aTeam [mkRat 3 5, mkRat 2 5]))).players,
        (q.position_role = "GK" → q.position = ((104 : ℚ), (34 : ℚ))) ∧
        (q.position_role ≠ "GK" → in_box q.position))) ∧
    ((simulate_step (mkSimulator hTeam aTeam [mkRat 3 5, mkRat 2 5]) "SHOOT"
          (some (110, 34))).1.set_piece = some "GOAL_KICK" →
      (simulate_step (mkSimulator hTeam aTeam [mkRat 3 5, mkRat 2 5]) "SHOOT"
          (some (110, 34))).1.ball_pos_after = ((5 : ℚ), (34 : ℚ)) ∧
      (simulate_step (mkSimulator hTeam aTeam [mkRat 3 5, mkRat 2 5]) "SHOOT"
          (some (110, 34))).2.game_state = "GOAL_KICK") ∧
    (∀ st, (simulate_step (mkSimulator hTeam aTeam [mkRat 3 5, mkRat 2 5])
          "SHOOT" (some (110, 34))).1.set_piece = some st →
      (simulate_step (mkSimulator hTeam aTeam [mkRat 3 5, mkRat 2 5]) "SHOOT"
          (some (110, 34))).2.game_state = st)) :=
  ⟨by decide,
    corner_goal_kick_correct (mkSimulator hTeam aTeam [mkRat 3 5, mkRat 2 5])
      "SHOOT" (some (110, 34)) (by decide)⟩

end FootballSim
